import Mathlib

/-!
Shallow embedding of `src/gns3/link.py` (class `Link`): the link lifecycle
state machine, its two endpoint collaborators (Node/Port, modelled at their
interface boundary), the Qt signal emissions (recorded as an event trace
with the observable state at each emission), and the HTTP requests issued
to the controller (recorded as a request trace).
-/

namespace GNS3

/-- A Python scalar value, as far as the link id payload is concerned:
`_link_id` may hold `None` (modelled by `Option`), an integer or a string.
Python truthiness on these distinguishes `0` and `""` from other values. -/
inductive PyVal where
  | int : Int → PyVal
  | str : String → PyVal
deriving DecidableEq

/-- Python truthiness of the optional `_link_id` value: `None`, `0` and the
empty string are falsy, everything else truthy.  This models the test
`if self._link_id:` at line 83 of `link.py`. -/
def pyTruthy : Option PyVal → Bool
  | none => false
  | some (PyVal.int n) => n != 0
  | some (PyVal.str s) => s != ""

/-- Immutable descriptor of a Node collaborator: its identity, display name
and owning project id (`node.node_id()`, `node.name()`, `node.project().id()`). -/
structure Node where
  nid : Nat
  name : String
  projectId : Nat
deriving DecidableEq

/-- Immutable descriptor of a Port collaborator: its identity, display name
and adapter/port numbering (`port.id()`, `port.name()`, `port.adapterNumber()`,
`port.portNumber()`). -/
structure Port where
  pid : Nat
  name : String
  adapterNumber : Nat
  portNumber : Nat
deriving DecidableEq

/-- Mutable back-reference state of a Port collaborator: the link id set by
`setLinkId`, and the destination node/port references set by
`setDestinationNode` / `setDestinationPort` (stored as node/port identities). -/
structure PortState where
  link_id : Option Nat
  destinationNode : Option Nat
  destinationPort : Option Nat
deriving DecidableEq

/-- Modelled from the spec: `Port.setFree()` is not under `src/`; the spec
describes it as the setter that "clears link association", so it clears the
link id and both destination back-references. -/
def PortState.setFree (_p : PortState) : PortState :=
  { link_id := none, destinationNode := none, destinationPort := none }

/-- The Qt signals emitted by `Link` (each carrying the link's local `_id`)
and the `updated_signal` of a Node collaborator (tagged with the emitting
node's identity). -/
inductive Ev where
  | add_link : Nat → Ev
  | delete_link : Nat → Ev
  | updated_link : Nat → Ev
  | error_link : Nat → Ev
  | node_updated : Nat → Ev
deriving DecidableEq

/-- Body of the link-creation POST: the two endpoints' node/adapter/port
identifiers, in source-then-destination order. -/
structure CreateBody where
  srcNodeId : Nat
  srcAdapter : Nat
  srcPortNumber : Nat
  dstNodeId : Nat
  dstAdapter : Nat
  dstPortNumber : Nat
deriving DecidableEq

/-- HTTP requests the Link issues to the controller, with the parameters that
appear in the URL/body. -/
inductive Req where
  | postCreateLink : Nat → CreateBody → Req
  | deleteLinkReq : Nat → Option PyVal → Req
  | postStartCapture : Nat → Option PyVal → String → PyVal → Req
  | postStopCapture : Nat → Option PyVal → Req
deriving DecidableEq

/-- The mutable state observable from a Link and its collaborators:
`_link_id`, the two ports' back-reference state, the two nodes' registered
link lists (`addLink`/`deleteLink`), and the capture sub-state. -/
structure Obs where
  link_id : Option PyVal
  sourcePort : PortState
  destinationPort : PortState
  sourceNodeLinks : List Nat
  destinationNodeLinks : List Nat
  capturing : Bool
  capture_file_path : Option String
deriving DecidableEq

/-- The world of one Link: its immutable local id and endpoint descriptors,
the mutable observable state, the trace of emitted signals (pairing each
signal with the observable state at the moment of synchronous emission) and
the trace of issued controller requests. -/
structure World where
  lid : Nat
  sourceNode : Node
  sourcePortD : Port
  destinationNode : Node
  destinationPortD : Port
  obs : Obs
  events : List (Ev × Obs)
  requests : List Req
deriving DecidableEq

/-- Synchronous signal emission: appends the event, snapshotting the
observable state a synchronously-invoked handler would see. -/
def emit (e : Ev) (w : World) : World :=
  { w with events := w.events ++ [(e, w.obs)] }

/-- Issuing an asynchronous controller request. -/
def post (r : Req) (w : World) : World :=
  { w with requests := w.requests ++ [r] }

/-- `Link._linkCreatedCallback(result, error)`: on error, log only (no state
change); on success, emit `add_link_signal(self._id)`, then wire both ports
(link id := local id, destinations cross-wired to the other endpoint), and
finally set `self._link_id = result["link_id"]`, in exactly the source order
of lines 88-102. -/
def linkCreatedCallback (result : PyVal) (error : Bool) (w : World) : World :=
  if error then w
  else
    let w := emit (Ev.add_link w.lid) w
    let w := { w with obs := { w.obs with
      sourcePort := { w.obs.sourcePort with link_id := some w.lid } } }
    let w := { w with obs := { w.obs with
      sourcePort := { w.obs.sourcePort with destinationNode := some w.destinationNode.nid } } }
    let w := { w with obs := { w.obs with
      sourcePort := { w.obs.sourcePort with destinationPort := some w.destinationPortD.pid } } }
    let w := { w with obs := { w.obs with
      destinationPort := { w.obs.destinationPort with link_id := some w.lid } } }
    let w := { w with obs := { w.obs with
      destinationPort := { w.obs.destinationPort with destinationNode := some w.sourceNode.nid } } }
    let w := { w with obs := { w.obs with
      destinationPort := { w.obs.destinationPort with destinationPort := some w.sourcePortD.pid } } }
    { w with obs := { w.obs with link_id := some result } }

/-- `Link.link_id()`. -/
def link_id (w : World) : Option PyVal :=
  w.obs.link_id

/-- `Link.__init__(source_node, source_port, destination_node,
destination_port, link_id=None)`: takes the current value of the class
counter `Link._instance_count` and returns the constructed world together
with the incremented counter.  The two ports' prior back-reference state and
the two nodes' prior link lists are parameters (`sp0`, `dp0`, `snl0`,
`dnl0`).  Steps, in source order: assign `self._id` from the counter,
initialise fields, register with both nodes (`addLink`), then either invoke
`_linkCreatedCallback({"link_id": self._link_id})` synchronously when the
supplied id is truthy, or POST the create request. -/
def mkLink (count : Nat) (sn : Node) (sp : Port) (dn : Node) (dp : Port)
    (sp0 dp0 : PortState) (snl0 dnl0 : List Nat) (link_id0 : Option PyVal) :
    World × Nat :=
  let id := count
  let w : World :=
    { lid := id
      sourceNode := sn
      sourcePortD := sp
      destinationNode := dn
      destinationPortD := dp
      obs :=
        { link_id := link_id0
          sourcePort := sp0
          destinationPort := dp0
          sourceNodeLinks := snl0 ++ [id]
          destinationNodeLinks := dnl0 ++ [id]
          capturing := false
          capture_file_path := none }
      events := []
      requests := [] }
  let body : CreateBody :=
    { srcNodeId := sn.nid, srcAdapter := sp.adapterNumber, srcPortNumber := sp.portNumber
      dstNodeId := dn.nid, dstAdapter := dp.adapterNumber, dstPortNumber := dp.portNumber }
  let w :=
    if pyTruthy link_id0 then
      linkCreatedCallback (link_id0.getD (PyVal.int 0)) false w
    else
      post (Req.postCreateLink sn.projectId body) w
  (w, count + 1)

/-- `Link._linkDeletedCallback(result, error)`: on error, log only; on
success, free the source port, remove the link from the source node, emit the
source node's `updated_signal`, do the same for the destination side, then
emit `delete_link_signal(self._id)` — source order of lines 168-184.
`Node.deleteLink` is modelled from the spec as removal of this link from the
node's registered-link list. -/
def linkDeletedCallback (error : Bool) (w : World) : World :=
  if error then w
  else
    let w := { w with obs := { w.obs with sourcePort := w.obs.sourcePort.setFree } }
    let w := { w with obs := { w.obs with
      sourceNodeLinks := w.obs.sourceNodeLinks.erase w.lid } }
    let w := emit (Ev.node_updated w.sourceNode.nid) w
    let w := { w with obs := { w.obs with destinationPort := w.obs.destinationPort.setFree } }
    let w := { w with obs := { w.obs with
      destinationNodeLinks := w.obs.destinationNodeLinks.erase w.lid } }
    let w := emit (Ev.node_updated w.destinationNode.nid) w
    emit (Ev.delete_link w.lid) w

/-- `Link.deleteLink(skip_controller=False)`: when `skip_controller` is true,
invoke `_linkDeletedCallback({})` synchronously; otherwise DELETE the remote
link (URL built from the owning project and `self._link_id`). -/
def deleteLink (skip_controller : Bool) (w : World) : World :=
  if skip_controller then linkDeletedCallback false w
  else post (Req.deleteLinkReq w.sourceNode.projectId w.obs.link_id) w

/-- `Link.setCapturing(capturing)`: set the flag and emit
`updated_link_signal(self._id)`. -/
def setCapturing (b : Bool) (w : World) : World :=
  emit (Ev.updated_link w.lid) { w with obs := { w.obs with capturing := b } }

/-- `Link.startCapture(data_link_type, capture_file_name)`: POST the
start-capture request. -/
def startCapture (data_link_type : PyVal) (capture_file_nm : String) (w : World) : World :=
  post (Req.postStartCapture w.sourceNode.projectId w.obs.link_id capture_file_nm data_link_type) w

/-- `Link._startCaptureCallback(result, error)`: on error, log only; on
success, store `result["capture_file_path"]` then `setCapturing(True)`. -/
def startCaptureCallback (path : String) (error : Bool) (w : World) : World :=
  if error then w
  else setCapturing true { w with obs := { w.obs with capture_file_path := some path } }

/-- `Link.stopCapture()`: POST the stop-capture request. -/
def stopCapture (w : World) : World :=
  post (Req.postStopCapture w.sourceNode.projectId w.obs.link_id) w

/-- `Link._stopCaptureCallback(result, error)`: on error, log only; on
success, `setCapturing(False)`.  The capture file path is not touched. -/
def stopCaptureCallback (error : Bool) (w : World) : World :=
  if error then w else setCapturing false w

/-- `Link.getNodePort(node)`: the destination port when `node` is the
destination node, the source port otherwise. -/
def getNodePort (w : World) (node : Node) : Port :=
  if w.destinationNode = node then w.destinationPortD else w.sourcePortD

/-- Character class `[0-9A-Za-z_-]` of the `re.sub` in
`Link.capture_file_name`. -/
def isAllowedChar (c : Char) : Bool :=
  (('0' ≤ c) && (c ≤ '9')) || (('A' ≤ c) && (c ≤ 'Z')) ||
    (('a' ≤ c) && (c ≤ 'z')) || (c == '_') || (c == '-')

/-- The formatted name `"{}_{}_to_{}_{}"` built by `Link.capture_file_name`
before sanitization. -/
def rawCaptureName (w : World) : String :=
  w.sourceNode.name ++ "_" ++ w.sourcePortD.name ++ "_to_" ++
    w.destinationNode.name ++ "_" ++ w.destinationPortD.name

/-- `Link.capture_file_name()`: `re.sub("[^0-9A-Za-z_-]", "", name)` deletes
every character outside the class, i.e. filters the characters by
`isAllowedChar`. -/
def capture_file_name (w : World) : String :=
  String.mk ((rawCaptureName w).data.filter isAllowedChar)

/-- Initial value of the class counter `Link._instance_count`. -/
def instanceCountInit : Nat := 1

/-- `Link.reset()`: resets `Link._instance_count` to 1 whatever its current
value. -/
def linkReset (_c : Nat) : Nat := 1

/-- Fixed Node descriptor used when iterating constructions for the id
allocator (the assigned ids do not depend on the descriptors). -/
def defaultNode : Node := { nid := 0, name := "R", projectId := 0 }

/-- Fixed Port descriptor used when iterating constructions. -/
def defaultPort : Port := { pid := 0, name := "eth0", adapterNumber := 0, portNumber := 0 }

/-- A port with no link association. -/
def freshPortState : PortState :=
  { link_id := none, destinationNode := none, destinationPort := none }

/-- Local ids assigned by `n` successive `Link` constructions starting from
counter value `c`. -/
def mkLinkIds : Nat → Nat → List Nat
  | _, 0 => []
  | c, n + 1 =>
    let r := mkLink c defaultNode defaultPort defaultNode defaultPort
      freshPortState freshPortState [] [] none
    r.1.lid :: mkLinkIds r.2 n

/-! Concrete fixtures used by closed (counterexample/witness) theorems. -/

/-- Concrete node "R1" on project 7. -/
def nodeR1 : Node := { nid := 1, name := "R1", projectId := 7 }

/-- Concrete node "R2" on project 7. -/
def nodeR2 : Node := { nid := 2, name := "R2", projectId := 7 }

/-- A node unrelated to any link in the fixtures. -/
def nodeC : Node := { nid := 3, name := "C", projectId := 7 }

/-- Concrete port "eth0". -/
def portEth0 : Port := { pid := 11, name := "eth0", adapterNumber := 0, portNumber := 0 }

/-- Concrete port "eth1". -/
def portEth1 : Port := { pid := 12, name := "eth1", adapterNumber := 0, portNumber := 1 }

/-- A freshly constructed Link between (R1, eth0) and (R2, eth1) with no
existing remote id: the create request is outstanding. -/
def freshLink : World :=
  (mkLink 1 nodeR1 portEth0 nodeR2 portEth1 freshPortState freshPortState [] [] none).1

/-- The capture-related controller completions a Link can receive: a
successful or failed start-capture callback, a successful or failed
stop-capture callback. -/
inductive CaptureOp where
  | startOk : String → CaptureOp
  | startErr : CaptureOp
  | stopOk : CaptureOp
  | stopErr : CaptureOp
deriving DecidableEq

/-- Dispatch one capture completion to the corresponding callback. -/
def applyCaptureOp : CaptureOp → World → World
  | CaptureOp.startOk p, w => startCaptureCallback p false w
  | CaptureOp.startErr, w => startCaptureCallback "" true w
  | CaptureOp.stopOk, w => stopCaptureCallback false w
  | CaptureOp.stopErr, w => stopCaptureCallback true w

/-- Run a sequence of capture completions. -/
def runCaptureOps : List CaptureOp → World → World
  | [], w => w
  | op :: ops, w => runCaptureOps ops (applyCaptureOp op w)

/-- The capture invariant: `capturing` implies the capture file path is set. -/
def capInv (w : World) : Bool :=
  !w.obs.capturing || w.obs.capture_file_path.isSome

/-- The fresh Link after its create callback succeeds with remote id 42. -/
def c4Run : World := linkCreatedCallback (PyVal.int 42) false freshLink

/-- The fresh Link after a successful start-capture callback with path
"/tmp/tcp.pcap" followed by a successful stop-capture callback. -/
def c3Run : World :=
  stopCaptureCallback false (startCaptureCallback "/tmp/tcp.pcap" false freshLink)

/-- The fresh Link (create request still outstanding) torn down via
`deleteLink(skip_controller=True)`. -/
def c6AfterDelete : World := deleteLink true freshLink

/-- The torn-down Link after the late create confirmation arrives. -/
def c6AfterLateCreate : World := linkCreatedCallback (PyVal.int 42) false c6AfterDelete

/-- C1. For every Link constructed without an existing remote id, after the
create callback succeeds with `{link_id: 42}`: `link_id()` returns 42, the
`add_link` event was emitted exactly once (the event trace is exactly that
one event) carrying the Link's local id, both ports carry the Link's local
id, and each port's destination node/port is the opposite endpoint. -/
theorem create_success_finalizes (c : Nat) (sn : Node) (sp : Port) (dn : Node) (dp : Port)
    (sp0 dp0 : PortState) (snl0 dnl0 : List Nat) :
    let w := (mkLink c sn sp dn dp sp0 dp0 snl0 dnl0 none).1
    let wf := linkCreatedCallback (PyVal.int 42) false w
    link_id wf = some (PyVal.int 42) ∧
    wf.events.map Prod.fst = [Ev.add_link wf.lid] ∧
    wf.obs.sourcePort.link_id = some wf.lid ∧
    wf.obs.destinationPort.link_id = some wf.lid ∧
    wf.obs.sourcePort.destinationNode = some dn.nid ∧
    wf.obs.sourcePort.destinationPort = some dp.pid ∧
    wf.obs.destinationPort.destinationNode = some sn.nid ∧
    wf.obs.destinationPort.destinationPort = some sp.pid := by
  simp [mkLink, linkCreatedCallback, emit, post, pyTruthy, link_id]

/-- C2. For every Link, `deleteLink` with `skip_controller = true` performs
the deletion finalization synchronously (it equals the delete callback run on
the spot) with no request issued: both ports are freed, the Link is removed
from both nodes' link lists, an `updated` notification is emitted for each
node, and the `deleted` event carrying the local id is emitted last — the
snapshot at the `deleted` emission already shows both ports freed and the
Link removed from both nodes. -/
theorem deleteLink_skip_finalizes (w : World) :
    let o1 : Obs := { w.obs with
      sourcePort := w.obs.sourcePort.setFree
      sourceNodeLinks := w.obs.sourceNodeLinks.erase w.lid }
    let o2 : Obs := { o1 with
      destinationPort := w.obs.destinationPort.setFree
      destinationNodeLinks := w.obs.destinationNodeLinks.erase w.lid }
    let wd := deleteLink true w
    wd = linkDeletedCallback false w ∧
    wd.requests = w.requests ∧
    wd.obs.sourcePort.link_id = none ∧
    wd.obs.destinationPort.link_id = none ∧
    wd.obs.sourceNodeLinks = w.obs.sourceNodeLinks.erase w.lid ∧
    wd.obs.destinationNodeLinks = w.obs.destinationNodeLinks.erase w.lid ∧
    wd.events = w.events ++
      [(Ev.node_updated w.sourceNode.nid, o1),
       (Ev.node_updated w.destinationNode.nid, o2),
       (Ev.delete_link w.lid, o2)] ∧
    o2.sourcePort.link_id = none ∧
    o2.destinationPort.link_id = none ∧
    o2.sourceNodeLinks = w.obs.sourceNodeLinks.erase w.lid ∧
    o2.destinationNodeLinks = w.obs.destinationNodeLinks.erase w.lid := by
  simp [deleteLink, linkDeletedCallback, emit, post, PortState.setFree]

/-- C4 counterexample. At the concrete run (fresh Link between (R1, eth0)
and (R2, eth1), create callback succeeding with 42), the `created` event's
snapshot shows `link_id` still unset (`none`) at the moment of delivery,
while after the callback `link_id()` is 42: the claim that the remote id is
set before the event is emitted is false at this input. -/
theorem create_finalize_order_counterexample :
    (c4Run.events.map fun p => (p.1, p.2.link_id)) =
      [(Ev.add_link 1, (none : Option PyVal))] ∧
    link_id c4Run = some (PyVal.int 42) ∧
    ¬ ((none : Option PyVal) = some (PyVal.int 42)) := by
  refine ⟨rfl, rfl, by simp⟩

/-- C4 amended. Finalization of a successful create performs its steps in
this order: first emits the `created` event (the snapshot at emission is
exactly the pre-callback state: ports unwired, `link_id` still `none`), then
wires both ports, and sets the remote id last; when the `created` event is
delivered, `link_id()` still returns `none`, and only after the callback
completes does it return the confirmed remote id. -/
theorem create_finalize_order (c : Nat) (sn : Node) (sp : Port) (dn : Node) (dp : Port)
    (sp0 dp0 : PortState) (snl0 dnl0 : List Nat) (v : PyVal) :
    let w := (mkLink c sn sp dn dp sp0 dp0 snl0 dnl0 none).1
    let wf := linkCreatedCallback v false w
    wf.events = [(Ev.add_link c, w.obs)] ∧
    w.obs.link_id = none ∧
    w.obs.sourcePort = sp0 ∧
    w.obs.destinationPort = dp0 ∧
    link_id wf = some v ∧
    wf.obs.sourcePort.link_id = some c ∧
    wf.obs.destinationPort.link_id = some c := by
  simp [mkLink, linkCreatedCallback, emit, post, pyTruthy, link_id]

/-- C5. When the create or delete callback is invoked with the error flag
set, the world is unchanged: no field of the Link changes and no event is
emitted.  In particular, on create failure for a freshly constructed Link no
`created` event fires, `link_id()` still returns `none`, and the Link is
still registered with both nodes; on delete failure (from any state) ports
and nodes keep their association with the Link. -/
theorem error_callbacks_are_noops (v : PyVal) (w : World)
    (c : Nat) (sn : Node) (sp : Port) (dn : Node) (dp : Port)
    (sp0 dp0 : PortState) (snl0 dnl0 : List Nat) :
    linkCreatedCallback v true w = w ∧
    linkDeletedCallback true w = w ∧
    (let w0 := (mkLink c sn sp dn dp sp0 dp0 snl0 dnl0 none).1
     let w1 := linkCreatedCallback v true w0
     w1.events = [] ∧
     link_id w1 = none ∧
     w0.lid ∈ w1.obs.sourceNodeLinks ∧
     w0.lid ∈ w1.obs.destinationNodeLinks) := by
  refine ⟨rfl, rfl, ?_⟩
  simp [mkLink, linkCreatedCallback, emit, post, pyTruthy, link_id]

/-- Helper: every single capture completion preserves the capture invariant. -/
theorem capInv_applyCaptureOp (op : CaptureOp) (w : World) (h : capInv w = true) :
    capInv (applyCaptureOp op w) = true := by
  cases op <;>
    simp_all [applyCaptureOp, startCaptureCallback, stopCaptureCallback,
      setCapturing, emit, capInv]

/-- Helper: every sequence of capture completions preserves the capture
invariant. -/
theorem capInv_runCaptureOps (ops : List CaptureOp) (w : World) (h : capInv w = true) :
    capInv (runCaptureOps ops w) = true := by
  induction ops generalizing w with
  | nil => exact h
  | cons op ops ih => exact ih (applyCaptureOp op w) (capInv_applyCaptureOp op w h)

/-- C3 counterexample. Concrete run: fresh Link, successful start-capture
callback with path "/tmp/tcp.pcap", then a successful (confirmed)
stop-capture callback.  Afterwards `capturing` is false but the capture file
path still holds "/tmp/tcp.pcap": the claim that both are reset together is
false at this input. -/
theorem stop_capture_keeps_path_counterexample :
    c3Run.obs.capturing = false ∧
    c3Run.obs.capture_file_path = some "/tmp/tcp.pcap" ∧
    ¬ c3Run.obs.capture_file_path = none := by
  refine ⟨rfl, rfl, by simp [c3Run, stopCaptureCallback, startCaptureCallback,
    setCapturing, emit]⟩

/-- C3 amended. Whenever `capturing` is true the capture file path is set,
and this invariant is preserved by every sequence of capture completions; on
a confirmed stop-capture callback `capturing` becomes false while the capture
file path is left unchanged (it is not cleared). -/
theorem capture_invariant_stop_keeps_path (ops : List CaptureOp) (w : World)
    (h : capInv w = true) :
    capInv (runCaptureOps ops w) = true ∧
    (stopCaptureCallback false w).obs.capturing = false ∧
    (stopCaptureCallback false w).obs.capture_file_path = w.obs.capture_file_path := by
  exact ⟨capInv_runCaptureOps ops w h, rfl, rfl⟩

/-- Witness for the amended C3 theorem at a concrete input: the fresh Link
satisfies the invariant, and after a successful start then stop the
invariant still holds and the stop kept the path. -/
theorem capture_invariant_stop_keeps_path_witness :
    capInv (runCaptureOps [CaptureOp.startOk "/tmp/tcp.pcap", CaptureOp.stopOk] freshLink) = true ∧
    (stopCaptureCallback false freshLink).obs.capturing = false ∧
    (stopCaptureCallback false freshLink).obs.capture_file_path = freshLink.obs.capture_file_path :=
  capture_invariant_stop_keeps_path [CaptureOp.startOk "/tmp/tcp.pcap", CaptureOp.stopOk]
    freshLink (by decide)

/-- C6. There is an execution in which deletion finalization completes (both
ports freed, the Link removed from both nodes, the `deleted` event emitted)
and a create confirmation delivered afterwards is still applied in full: both
ports are re-wired with the Link's local id and cross-wired destinations, the
remote id is stored, and the `created` event is emitted after the `deleted`
event — no transition-validity check rejects the late callback. -/
theorem late_create_after_delete_applied :
    c6AfterDelete.obs.sourcePort.link_id = none ∧
    c6AfterDelete.obs.destinationPort.link_id = none ∧
    c6AfterDelete.obs.sourceNodeLinks = [] ∧
    c6AfterDelete.obs.destinationNodeLinks = [] ∧
    c6AfterDelete.events.map Prod.fst =
      [Ev.node_updated 1, Ev.node_updated 2, Ev.delete_link 1] ∧
    c6AfterLateCreate.obs.sourcePort.link_id = some 1 ∧
    c6AfterLateCreate.obs.destinationPort.link_id = some 1 ∧
    c6AfterLateCreate.obs.sourcePort.destinationNode = some 2 ∧
    c6AfterLateCreate.obs.sourcePort.destinationPort = some 12 ∧
    c6AfterLateCreate.obs.destinationPort.destinationNode = some 1 ∧
    c6AfterLateCreate.obs.destinationPort.destinationPort = some 11 ∧
    link_id c6AfterLateCreate = some (PyVal.int 42) ∧
    c6AfterLateCreate.events.map Prod.fst =
      [Ev.node_updated 1, Ev.node_updated 2, Ev.delete_link 1, Ev.add_link 1] := by
  decide

/-- Helper: the ids assigned by `n` successive constructions starting from
counter `c` are exactly `c, c+1, ..., c+n-1`. -/
theorem mkLinkIds_eq_range' (c n : Nat) : mkLinkIds c n = List.range' c n := by
  induction n generalizing c with
  | zero => rfl
  | succ n ih => simp [mkLinkIds, mkLink, post, pyTruthy, ih, List.range']

/-- C7. The local ids assigned by successive Link constructions are strictly
increasing integers starting at 1 (from the initial counter they are exactly
`1, 2, ..., n`, the first assigned id is 1), and after `reset()` the counter
is 1 again, so the ids restart at `1, 2, ..., n` regardless of the counter
value reached before. -/
theorem allocator_ids (c n : Nat) :
    mkLinkIds instanceCountInit n = List.range' 1 n ∧
    List.Pairwise (· < ·) (mkLinkIds c n) ∧
    (mkLinkIds instanceCountInit (n + 1)).head? = some 1 ∧
    linkReset c = 1 ∧
    mkLinkIds (linkReset c) n = List.range' 1 n := by
  refine ⟨mkLinkIds_eq_range' 1 n, ?_, ?_, rfl, mkLinkIds_eq_range' 1 n⟩
  · rw [mkLinkIds_eq_range' c n]
    exact List.pairwise_lt_range' c n
  · simp [instanceCountInit, mkLinkIds_eq_range', List.range']

/-- C8. `getNodePort(node)` returns the destination port when `node` is the
destination node, and otherwise returns the source port unconditionally —
including when `node` is neither endpoint (no participation check). -/
theorem getNodePort_cases (w : World) (n : Node) :
    (n = w.destinationNode → getNodePort w n = w.destinationPortD) ∧
    (n ≠ w.destinationNode → getNodePort w n = w.sourcePortD) := by
  constructor
  · intro h
    subst h
    simp [getNodePort]
  · intro h
    have h2 : ¬ (w.destinationNode = n) := fun e => h e.symm
    simp [getNodePort, h2]

/-- Witness for C8 on the concrete Link from (R1, eth0) to (R2, eth1):
`getNodePort` at R2 gives eth1; at R1 and at the unrelated node C it gives
eth0. -/
theorem getNodePort_cases_witness :
    getNodePort freshLink nodeR2 = portEth1 ∧
    getNodePort freshLink nodeR1 = portEth0 ∧
    getNodePort freshLink nodeC = portEth0 :=
  ⟨(getNodePort_cases freshLink nodeR2).1 (by decide),
   (getNodePort_cases freshLink nodeR1).2 (by decide),
   (getNodePort_cases freshLink nodeC).2 (by decide)⟩

/-- C9. For all endpoint node and port names, `capture_file_name()` is the
character-wise filter of the formatted name by the class `[0-9A-Za-z_-]`:
every retained character is in the class, and the result is a sublist of the
formatted name's characters (pure removal, relative order preserved, no
substitution). -/
theorem capture_file_name_sanitized (w : World) :
    (capture_file_name w).data = (rawCaptureName w).data.filter isAllowedChar ∧
    (capture_file_name w).data.all isAllowedChar = true ∧
    List.Sublist (capture_file_name w).data (rawCaptureName w).data := by
  refine ⟨rfl, ?_, ?_⟩
  · simp [capture_file_name, List.all_eq_true]
  · exact List.filter_sublist (rawCaptureName w).data

/-- C10. The reattachment check on the supplied remote id is a truthiness
test, not a presence test: a supplied id of 0 or of the empty string is
falsy, so construction issues the asynchronous create request (no event, no
finalization — `_link_id` still holds the falsy value); a truthy supplied id
takes the synchronous path: no request is issued and the Link is finalized on
the spot (the `created` event fires and `link_id()` returns the supplied
value). -/
theorem truthiness_dispatch (c : Nat) (sn : Node) (sp : Port) (dn : Node) (dp : Port)
    (sp0 dp0 : PortState) (snl0 dnl0 : List Nat) :
    let body : CreateBody := { srcNodeId := sn.nid
                               srcAdapter := sp.adapterNumber
                               srcPortNumber := sp.portNumber
                               dstNodeId := dn.nid
                               dstAdapter := dp.adapterNumber
                               dstPortNumber := dp.portNumber }
    let w0 := (mkLink c sn sp dn dp sp0 dp0 snl0 dnl0 (some (PyVal.int 0))).1
    let w1 := (mkLink c sn sp dn dp sp0 dp0 snl0 dnl0 (some (PyVal.str ""))).1
    pyTruthy (some (PyVal.int 0)) = false ∧
    w0.requests = [Req.postCreateLink sn.projectId body] ∧
    w0.events = [] ∧
    link_id w0 = some (PyVal.int 0) ∧
    pyTruthy (some (PyVal.str "")) = false ∧
    w1.requests = [Req.postCreateLink sn.projectId body] ∧
    w1.events = [] ∧
    (∀ v : PyVal, pyTruthy (some v) = true →
      (mkLink c sn sp dn dp sp0 dp0 snl0 dnl0 (some v)).1.requests = [] ∧
      (mkLink c sn sp dn dp sp0 dp0 snl0 dnl0 (some v)).1.events.map Prod.fst =
        [Ev.add_link c] ∧
      link_id (mkLink c sn sp dn dp sp0 dp0 snl0 dnl0 (some v)).1 = some v) := by
  refine ⟨rfl, rfl, rfl, rfl, rfl, rfl, rfl, ?_⟩
  intro v hv
  simp [mkLink, hv, linkCreatedCallback, emit, post, link_id]

/-- Witness for C10 at a concrete truthy id: constructing with remote id 42
issues no request, emits the `created` event and reports `link_id()` = 42. -/
theorem truthiness_dispatch_witness :
    pyTruthy (some (PyVal.int 42)) = true ∧
    ((mkLink 1 nodeR1 portEth0 nodeR2 portEth1 freshPortState freshPortState
        [] [] (some (PyVal.int 42))).1.requests = [] ∧
     (mkLink 1 nodeR1 portEth0 nodeR2 portEth1 freshPortState freshPortState
        [] [] (some (PyVal.int 42))).1.events.map Prod.fst = [Ev.add_link 1] ∧
     link_id (mkLink 1 nodeR1 portEth0 nodeR2 portEth1 freshPortState freshPortState
        [] [] (some (PyVal.int 42))).1 = some (PyVal.int 42)) :=
  ⟨by decide,
   (truthiness_dispatch 1 nodeR1 portEth0 nodeR2 portEth1 freshPortState
      freshPortState [] []).2.2.2.2.2.2.2 (PyVal.int 42) (by decide)⟩

end GNS3
